import Mathlib

/-!
Shallow embedding of the data-discovery loader of `src/main.py`: Hangul NFC
normalization (`normalize_text`), file and sheet matching by substring
containment after normalization, CSV and workbook loading into site-keyed
collections, and the dashboard-side lookups that consume those collections.
Text is modelled as a list of Unicode codepoints, tables as ordered
association lists from column label to the cell values of that column, and Python
dicts as ordered association lists with insert-or-overwrite update.
-/

/-- Unicode text, modelled as the list of its codepoints. -/
abbrev UStr := List Nat

/-- Leading-consonant (choseong) jamo range U+1100 to U+1112. -/
def isChoseong (c : Nat) : Bool := 0x1100 ≤ c && c ≤ 0x1112

/-- Vowel (jungseong) jamo range U+1161 to U+1175. -/
def isJungseong (c : Nat) : Bool := 0x1161 ≤ c && c ≤ 0x1175

/-- Trailing-consonant (jongseong) jamo range U+11A8 to U+11C2. -/
def isJongseong (c : Nat) : Bool := 0x11A8 ≤ c && c ≤ 0x11C2

/-- Precomposed Hangul syllable with no trailing consonant (an LV syllable):
in the syllable block U+AC00 to U+D7A3 at an offset divisible by 28. -/
def isLVSyllable (c : Nat) : Bool :=
  0xAC00 ≤ c && c ≤ 0xD7A3 && (c - 0xAC00) % 28 == 0

/-- One pass of canonical Hangul composition: `cur` is the previous
codepoint, still open for composition with the next one.  A leading
consonant followed by a vowel composes to an LV syllable, and an LV
syllable followed by a trailing consonant composes to an LVT syllable,
exactly as in the Unicode Hangul composition algorithm
(SBase = U+AC00, LBase = U+1100, VBase = U+1161, TBase = U+11A7,
VCount = 21, TCount = 28). -/
def nfcGo (cur : Nat) : UStr → UStr
  | [] => [cur]
  | c :: rest =>
    if isChoseong cur && isJungseong c then
      nfcGo (0xAC00 + ((cur - 0x1100) * 21 + (c - 0x1161)) * 28) rest
    else if isLVSyllable cur && isJongseong c then
      nfcGo (cur + (c - 0x11A7)) rest
    else cur :: nfcGo c rest

/-- Unicode NFC normalization, restricted to the character repertoire of
the data of this repository (Hangul syllables, Hangul jamo, ASCII), where
canonical composition is exactly the algorithmic Hangul jamo composition. -/
def nfc : UStr → UStr
  | [] => []
  | c :: rest => nfcGo c rest

/-- Embedding of `normalize_text` (src/main.py, lines 23 to 24):
NFC normalization of the text. -/
def normalize_text (t : UStr) : UStr := nfc t

/-- Whether `pat` is a leading segment of `s` (helper for substring tests). -/
def strStarts : UStr → UStr → Bool
  | [], _ => true
  | _ :: _, [] => false
  | p :: ps, s :: ss => p == s && strStarts ps ss

/-- Embedding of the Python substring test `needle in hay` on strings:
true when `needle` occurs contiguously inside `hay`. -/
def strIn (needle : UStr) (hay : UStr) : Bool :=
  match hay with
  | [] => needle.isEmpty
  | _ :: rest => strStarts needle hay || strIn needle rest

/-- ASCII whitespace, the forms that occur in the labels of the data files. -/
def isWS (c : Nat) : Bool := c == 0x20 || c == 0x9 || c == 0xA || c == 0xD

/-- Embedding of `str.strip()` on a column label: drop leading and trailing
whitespace. -/
def stripStr (s : UStr) : UStr :=
  ((s.dropWhile isWS).reverse.dropWhile isWS).reverse

/-- Embedding of `pathlib.Path.suffix`: the text from the last dot of the
name onward, provided that dot is neither the first nor the last character;
empty otherwise. -/
def fSuffix (name : UStr) : UStr :=
  let r := name.reverse
  let j := (r.takeWhile (fun c => c != 0x2E)).length
  if j < r.length && 1 ≤ j && j < name.length - 1 then
    (r.take (j + 1)).reverse
  else []

/-- Ordered dictionary keyed by text, with Python dict semantics. -/
abbrev SDict (α : Type) := List (UStr × α)

/-- Python dict update `d[k] = v`: overwrite in place when the key exists,
append otherwise (insertion order preserved). -/
def dictSet {α : Type} (d : SDict α) (k : UStr) (v : α) : SDict α :=
  match d with
  | [] => [(k, v)]
  | (k0, v0) :: rest =>
    if k0 == k then (k0, v) :: rest else (k0, v0) :: dictSet rest k v

/-- Python dict read access: the value at `k`, when present. -/
def dictLookup {α : Type} (d : SDict α) (k : UStr) : Option α :=
  match d with
  | [] => none
  | (k0, v0) :: rest => if k0 == k then some v0 else dictLookup rest k

/-- The keys of a dictionary, in insertion order. -/
def dictKeys {α : Type} (d : SDict α) : List UStr := d.map Prod.fst

/-- One cell of a loaded table: a number, a piece of text, or a parsed
timestamp. -/
inductive Cell where
  | num (x : Int)
  | txt (s : UStr)
  | time (t : Nat)
deriving DecidableEq, Repr

/-- A dataframe: ordered association of column label to the cells of that column. -/
abbrev DF := SDict (List Cell)

/-- Strip whitespace from every column label
(`df.columns = df.columns.str.strip()`). -/
def stripCols (df : DF) : DF := df.map (fun p => (stripStr p.1, p.2))

/-- Digit codepoint. -/
def isDigit (c : Nat) : Bool := 0x30 ≤ c && c ≤ 0x39

/-- Numeric value of a run of digit codepoints. -/
def digitsVal (l : UStr) : Nat := l.foldl (fun a c => a * 10 + (c - 0x30)) 0

/-- Model of parsing one timestamp text, restricted to the dash-separated
date layout of the data files (four digits, dash, two digits, dash, two
digits); any other shape is a parse failure, as `pd.to_datetime` raises on
malformed text. -/
def parseDate (s : UStr) : Option Nat :=
  match s with
  | [y1, y2, y3, y4, h1, m1, m2, h2, a1, a2] =>
    if (h1 == 0x2D && h2 == 0x2D) &&
        ([y1, y2, y3, y4, m1, m2, a1, a2].all isDigit) then
      some (digitsVal [y1, y2, y3, y4] * 10000 +
            digitsVal [m1, m2] * 100 + digitsVal [a1, a2])
    else none
  | _ => none

/-- Error text used where Python raises a missing-key error. -/
def errKey : UStr := [0x4B, 0x65, 0x79]

/-- Error text used where timestamp parsing raises. -/
def errDate : UStr := [0x44, 0x61, 0x74, 0x65]

/-- Error text used where a file is not readable in the requested format. -/
def errFmt : UStr := [0x46, 0x6D, 0x74]

/-- Embedding of the to_datetime conversion on one column: every cell must
parse as a timestamp, otherwise the whole conversion raises. -/
def toDatetime : List Cell → Except UStr (List Cell)
  | [] => .ok []
  | c :: rest =>
    match c with
    | .txt s =>
      match parseDate s with
      | some t =>
        match toDatetime rest with
        | .ok rest2 => .ok (Cell.time t :: rest2)
        | .error e => .error e
      | none => .error errDate
    | .num x =>
      match toDatetime rest with
      | .ok rest2 => .ok (Cell.time x.toNat :: rest2)
      | .error e => .error e
    | .time t =>
      match toDatetime rest with
      | .ok rest2 => .ok (Cell.time t :: rest2)
      | .error e => .error e

/-- The column label `time`. -/
def strTime : UStr := [0x74, 0x69, 0x6D, 0x65]

/-- Processing of one successfully read CSV dataframe (src/main.py lines 49
to 50): strip the column labels, then replace the `time` column by its
parsed timestamps; reading a missing `time` column or an unparseable
timestamp raises, which the caller catches. -/
def parseCsvDf (df : DF) : Except UStr DF :=
  match dictLookup (stripCols df) strTime with
  | none => .error errKey
  | some col =>
    match toDatetime col with
    | .error e => .error e
    | .ok col2 => .ok (dictSet (stripCols df) strTime col2)

/-- The content of one directory entry: a delimited-text file (what
`pd.read_csv` yields on it), a spreadsheet workbook (sheet name paired with
the outcome of `pd.read_excel` on that sheet), or anything else. -/
inductive FileContent where
  | csv (df : DF)
  | workbook (sheets : SDict (Except UStr DF))
  | other

/-- One entry of the input directory: its name and its content. -/
structure DataFile where
  name : UStr
  content : FileContent

/-- Embedding of `pd.read_csv(file_path)`: the tabular content when the
file is delimited text, a raised error otherwise. -/
def read_csv (f : DataFile) : Except UStr DF :=
  match f.content with
  | .csv df => .ok df
  | _ => .error errFmt

/-- Embedding of the sheet_names attribute of pd.ExcelFile: the sheet names
of the workbook in order, or a raised error when the file is not one. -/
def excel_sheet_names (f : DataFile) : Except UStr (List UStr) :=
  match f.content with
  | .workbook sheets => .ok (sheets.map Prod.fst)
  | _ => .error errFmt

/-- Embedding of `pd.read_excel(path, sheet_name=sn)`: the outcome of the
library parse of that sheet, or a raised error when the file is not a
workbook or has no such sheet. -/
def read_excel (f : DataFile) (sn : UStr) : Except UStr DF :=
  match f.content with
  | .workbook sheets =>
    match dictLookup sheets sn with
    | some r => r
    | none => .error errKey
  | _ => .error errFmt

/-- Reading and processing one CSV file (src/main.py lines 48 to 50):
`pd.read_csv`, strip labels, parse the `time` column. -/
def loadCsvFile (f : DataFile) : Except UStr DF :=
  match read_csv f with
  | .error e => .error e
  | .ok df => parseCsvDf df

/-- Static per-site configuration (src/main.py lines 29 to 34): target EC
and display color.  The EC targets are the whole numbers 1, 2, 4 and 8 in
the source; they are modelled as integers. -/
structure SchoolInfo where
  ec_target : Int
  color : UStr
deriving DecidableEq

/-- The site identifier written 송도고 (codepoints U+C1A1 U+B3C4 U+ACE0). -/
def songdo : UStr := [0xC1A1, 0xB3C4, 0xACE0]

/-- The site identifier written 하늘고 (codepoints U+D558 U+B298 U+ACE0). -/
def haneul : UStr := [0xD558, 0xB298, 0xACE0]

/-- The site identifier written 아라고 (codepoints U+C544 U+B77C U+ACE0). -/
def arago : UStr := [0xC544, 0xB77C, 0xACE0]

/-- The site identifier written 동산고 (codepoints U+B3D9 U+C0B0 U+ACE0). -/
def dongsan : UStr := [0xB3D9, 0xC0B0, 0xACE0]

/-- The `schools` constant of `load_all_data` (src/main.py lines 29 to 34):
the four sites with their target EC values and colors. -/
def schools : SDict SchoolInfo :=
  [(songdo, ⟨1, [0x23, 0x41, 0x42, 0x36, 0x33, 0x46, 0x41]⟩),
   (haneul, ⟨2, [0x23, 0x30, 0x30, 0x43, 0x43, 0x39, 0x36]⟩),
   (arago, ⟨4, [0x23, 0x46, 0x46, 0x41, 0x31, 0x35, 0x41]⟩),
   (dongsan, ⟨8, [0x23, 0x45, 0x46, 0x35, 0x35, 0x33, 0x42]⟩)]

/-- The site identifiers, in the iteration order of `schools.keys()`. -/
def siteNames : List UStr := schools.map Prod.fst

/-- The extension `.csv`. -/
def strCsv : UStr := [0x2E, 0x63, 0x73, 0x76]

/-- The extension `.xlsx`. -/
def strXlsx : UStr := [0x2E, 0x78, 0x6C, 0x73, 0x78]

/-- The extension `.xls`. -/
def strXls : UStr := [0x2E, 0x78, 0x6C, 0x73]

/-- The matching condition of the environmental loop (src/main.py line 46):
the site name occurs in the NFC-normalized file name and the suffix of the file
is exactly `.csv`. -/
def envFileMatch (school : UStr) (f : DataFile) : Bool :=
  strIn school (normalize_text f.name) && fSuffix f.name == strCsv

/-- Accumulator of the environmental loop: the site-keyed collection built
so far and the warnings issued so far (one per caught load failure, carrying
the file name as in the `st.warning` message). -/
structure EnvAcc where
  env : SDict DF
  warns : List UStr
deriving DecidableEq

/-- Body of the inner loop over sites (src/main.py lines 45 to 53): when
the file matches the site, try to load it; on success store the table under
the site, on a caught failure record a warning and continue. -/
def envSchoolStep (f : DataFile) (acc : EnvAcc) (school : UStr) : EnvAcc :=
  if envFileMatch school f then
    match loadCsvFile f with
    | .ok df => ⟨dictSet acc.env school df, acc.warns⟩
    | .error _ => ⟨acc.env, acc.warns ++ [f.name]⟩
  else acc

/-- Body of the outer loop over directory entries (src/main.py lines 43 to
53): run the site loop for one file. -/
def envFileStep (acc : EnvAcc) (f : DataFile) : EnvAcc :=
  siteNames.foldl (envSchoolStep f) acc

/-- The environmental loading phase (src/main.py lines 43 to 53): iterate
over the directory entries in enumeration order. -/
def loadEnvData (files : List DataFile) : EnvAcc :=
  files.foldl envFileStep ⟨[], []⟩

/-- Inner loop over sites for one sheet (src/main.py lines 63 to 67): when
the site name occurs in the NFC-normalized sheet name, read that sheet,
strip its labels and store it under the site.  A raised read error escapes
to the handler around the whole workbook block, so the partial collection
built so far is kept and the loop stops. -/
def growthSchoolLoop (target : DataFile) (sheetName : UStr) :
    List UStr → SDict DF → SDict DF × Option UStr
  | [], gd => (gd, none)
  | school :: rest, gd =>
    if strIn school (normalize_text sheetName) then
      match read_excel target sheetName with
      | .ok df => growthSchoolLoop target sheetName rest
          (dictSet gd school (stripCols df))
      | .error e => (gd, some e)
    else growthSchoolLoop target sheetName rest gd

/-- Outer loop over the sheet names of the workbook (src/main.py lines 61 to
67); a raised error from a sheet read stops the whole loop. -/
def growthSheetLoop (target : DataFile) :
    List UStr → SDict DF → SDict DF × Option UStr
  | [], gd => (gd, none)
  | sheetName :: rest, gd =>
    match growthSchoolLoop target sheetName siteNames gd with
    | (gd2, none) => growthSheetLoop target rest gd2
    | (gd2, some e) => (gd2, some e)

/-- The growth loading phase after the suffix filter (src/main.py lines 57
to 69): when at least one workbook candidate exists, open the first one and
run the sheet loop under one handler; a caught error yields one warning and
keeps whatever was stored before it was raised. -/
def loadGrowthFrom : List DataFile → SDict DF × List UStr
  | [] => ([], [])
  | target :: _ =>
    match excel_sheet_names target with
    | .error e => ([], [e])
    | .ok names =>
      match growthSheetLoop target names [] with
      | (gd, none) => (gd, [])
      | (gd, some e) => (gd, [e])

/-- The growth loading phase (src/main.py lines 56 to 69): keep the
directory entries whose suffix is `.xlsx` or `.xls`, then load from the
first of them. -/
def loadGrowthData (files : List DataFile) : SDict DF × List UStr :=
  loadGrowthFrom (files.filter
    (fun f => fSuffix f.name == strXlsx || fSuffix f.name == strXls))

/-- The full result of `load_all_data`: the static configuration, the two
site-keyed collections, and the warnings issued along the way. -/
structure LoadResult where
  schoolInfo : SDict SchoolInfo
  env : SDict DF
  growth : SDict DF
  warnings : List UStr

/-- Embedding of `load_all_data` (src/main.py lines 27 to 71).  The input
directory is `none` when `data/` does not exist (`base_path.exists()` is
false), in which case both collections come back empty; otherwise it is the
list of directory entries in enumeration order. -/
def load_all_data (dir : Option (List DataFile)) : LoadResult :=
  match dir with
  | none => ⟨schools, [], [], []⟩
  | some files =>
    let e := loadEnvData files
    let g := loadGrowthData files
    ⟨schools, e.env, g.1, e.warns ++ g.2⟩

/-- Embedding of the module-level guard (src/main.py lines 78 to 80): when
either collection is empty, an error is shown and rendering halts
(`st.stop()`). -/
def haltsRendering (r : LoadResult) : Bool :=
  r.env.isEmpty || r.growth.isEmpty

/-- Python dict subscription `d[k]`, which raises a missing-key error when
the key is absent. -/
def dictGetItem {α : Type} (d : SDict α) (k : UStr) : Except UStr α :=
  match dictLookup d k with
  | some v => .ok v
  | none => .error errKey

/-- Number of rows of a table (`len(df)`): the length of its first column. -/
def dfLen (df : DF) : Nat :=
  match df with
  | [] => 0
  | (_, col) :: _ => col.length

/-- Embedding of one row of the condition table of tab 1 (src/main.py lines 107
to 109): site name, target EC, and the row count of the growth table of that
table via the guarded access `GROWTH_DICT.get(k, [])`. -/
def tab1CondRow (growth : SDict DF) (k : UStr) (v : SchoolInfo) :
    UStr × Int × Nat :=
  (k, v.ec_target, (dictLookup growth k).elim 0 dfLen)

/-- Embedding of the per-site trend view of tab 2 (src/main.py line 153):
`target_df = ENV_DICT[selected_school]`, reached whenever a specific site
is selected in the sidebar; a direct subscription that raises when the key
is absent. -/
def envTrendView (env : SDict DF) (selectedSchool : UStr) : Except UStr DF :=
  dictGetItem env selectedSchool

/-- The column label `ec`. -/
def strEc : UStr := [0x65, 0x63]

/-- The timestamp text 2024-01-01. -/
def d01 : UStr := [0x32, 0x30, 0x32, 0x34, 0x2D, 0x30, 0x31, 0x2D, 0x30, 0x31]

/-- The timestamp text 2024-01-02. -/
def d02 : UStr := [0x32, 0x30, 0x32, 0x34, 0x2D, 0x30, 0x31, 0x2D, 0x30, 0x32]

/-- The timestamp text 2024-01-03. -/
def d03 : UStr := [0x32, 0x30, 0x32, 0x34, 0x2D, 0x30, 0x31, 0x2D, 0x30, 0x33]

/-- A well-formed environmental table: a `time` column of three dates and
an `ec` column of readings 1, 3, 2. -/
def envDf1 : DF :=
  [(strTime, [.txt d01, .txt d02, .txt d03]),
   (strEc, [.num 1, .num 3, .num 2])]

/-- A CSV file for 송도고 holding `envDf1`. -/
def fileSongdo : DataFile := ⟨songdo ++ strCsv, .csv envDf1⟩

/-- EC-delta as the specification defines it, after the first element:
the absolute difference of each value from its predecessor. -/
def ecDeltaGo (prev : Int) : List Int → List Int
  | [] => []
  | v :: rest => ((v - prev).natAbs : Int) :: ecDeltaGo v rest

/-- EC-delta of a column of EC values as the specification defines it:
zero for the first reading, then the absolute difference of consecutive
readings. -/
def ecDeltaSpec : List Int → List Int
  | [] => []
  | v :: rest => 0 :: ecDeltaGo v rest

/-- The table `envDf1` as the loader stores it: labels unchanged, the
`time` column parsed. -/
def loadedSongdoDf : DF :=
  [(strTime, [.time 20240101, .time 20240102, .time 20240103]),
   (strEc, [.num 1, .num 3, .num 2])]

/-- The column label `w` used by the growth fixtures. -/
def strW : UStr := [0x77]

/-- A small growth table with one numeric column of two rows. -/
def growthDf1 : DF := [(strW, [.num 10, .num 12])]

/-- The sheet name 송도고_a: the site identifier 송도고 followed by an
underscore and the letter a, so the site name is a proper substring. -/
def songdoA : UStr := songdo ++ [0x5F, 0x61]

/-- A workbook whose only sheet is named 송도고_a. -/
def wbC2 : DataFile := ⟨[0x67] ++ strXlsx, .workbook [(songdoA, .ok growthDf1)]⟩

/-- A one-row environmental table with EC reading 1. -/
def dfA : DF := [(strTime, [.txt d01]), (strEc, [.num 1])]

/-- A one-row environmental table with EC reading 9. -/
def dfB : DF := [(strTime, [.txt d01]), (strEc, [.num 9])]

/-- The table `dfA` as the loader stores it. -/
def pA : DF := [(strTime, [.time 20240101]), (strEc, [.num 1])]

/-- The table `dfB` as the loader stores it. -/
def pB : DF := [(strTime, [.time 20240101]), (strEc, [.num 9])]

/-- A CSV file named 송도고_a.csv holding `dfA`. -/
def f3a : DataFile := ⟨songdo ++ [0x5F, 0x61] ++ strCsv, .csv dfA⟩

/-- A CSV file named 송도고_b.csv holding `dfB`, enumerated after `f3a`. -/
def f3b : DataFile := ⟨songdo ++ [0x5F, 0x62] ++ strCsv, .csv dfB⟩

/-- A workbook whose only sheet is named exactly 송도고. -/
def wbC4 : DataFile := ⟨[0x68] ++ strXlsx, .workbook [(songdo, .ok growthDf1)]⟩

/-- An error text standing for a raised sheet-read error. -/
def eX : UStr := [0x45]

/-- A workbook whose first sheet (for 송도고) raises on read and whose
second sheet (for 하늘고) reads fine. -/
def wbC5 : DataFile :=
  ⟨[0x6B] ++ strXlsx, .workbook [(songdo, .error eX), (haneul, .ok growthDf1)]⟩

/-- An environmental table whose only time cell is the single letter x,
which the timestamp parse rejects. -/
def dfBadTime : DF := [(strTime, [.txt [0x78]]), (strEc, [.num 1])]

/-- A CSV file for 하늘고 holding `dfB`. -/
def fileHaneul : DataFile := ⟨haneul ++ strCsv, .csv dfB⟩

/-- A CSV file for 아라고 holding `dfA`. -/
def fileArago : DataFile := ⟨arago ++ strCsv, .csv dfA⟩

/-- A directory with environmental files for three of the four sites. -/
def dirC6 : List DataFile := [fileSongdo, fileHaneul, fileArago]

/-- A workbook with sheets named exactly 송도고, 하늘고 and 아라고, all of
which read fine; no sheet for 동산고. -/
def wbC7 : DataFile :=
  ⟨[0x6D] ++ strXlsx,
   .workbook [(songdo, .ok growthDf1), (haneul, .ok growthDf1),
              (arago, .ok growthDf1)]⟩

/-- A directory with one environmental file and a workbook missing the
sheet of one site. -/
def dirC7 : List DataFile := [fileSongdo, wbC7]

/-- The decomposed (NFD) encoding of 송도고: jamo codepoints U+1109 U+1169
U+11BC U+1103 U+1169 U+1100 U+1169, byte-distinct from the composed form. -/
def songdoNFD : UStr := [0x1109, 0x1169, 0x11BC, 0x1103, 0x1169, 0x1100, 0x1169]

/-- The same CSV file as `fileSongdo`, with the name stored in decomposed
form. -/
def fileSongdoNFD : DataFile := ⟨songdoNFD ++ strCsv, .csv envDf1⟩

/-- A workbook with one sheet of the given name and content. -/
def wbOf (sn : UStr) (df : DF) : DataFile :=
  ⟨[0x67] ++ strXlsx, .workbook [(sn, Except.ok df)]⟩

/-- A CSV file named 송도고_a.csv with the given content. -/
def f3aOf (df : DF) : DataFile := ⟨songdo ++ [0x5F, 0x61] ++ strCsv, .csv df⟩

/-- A CSV file named 송도고_b.csv with the given content. -/
def f3bOf (df : DF) : DataFile := ⟨songdo ++ [0x5F, 0x62] ++ strCsv, .csv df⟩

/-- A workbook whose only sheet is named exactly 송도고, with the given
content. -/
def wb4Of (df : DF) : DataFile :=
  ⟨[0x68] ++ strXlsx, .workbook [(songdo, Except.ok df)]⟩

/-- A CSV file named 송도고_x.csv with the given content. -/
def f5bad (df : DF) : DataFile := ⟨songdo ++ [0x5F, 0x78] ++ strCsv, .csv df⟩

/-- A CSV file named 하늘고_y.csv with the given content. -/
def f5good (df : DF) : DataFile := ⟨haneul ++ [0x5F, 0x79] ++ strCsv, .csv df⟩

/-- A workbook whose sheet for 송도고 raises the given error on read and
whose sheet for 하늘고 holds the given table. -/
def wb5Of (e2 : UStr) (df : DF) : DataFile :=
  ⟨[0x6B] ++ strXlsx, .workbook [(songdo, Except.error e2), (haneul, Except.ok df)]⟩

/-! Helper lemmas about the dictionary operations and the loader loops. -/

/-- Overwriting an already-present key leaves the key list unchanged. -/
theorem dictKeys_dictSet_of_mem {α : Type} (k : UStr) (v w : α) :
    ∀ d : SDict α, dictLookup d k = some v →
      dictKeys (dictSet d k w) = dictKeys d := by
  intro d
  induction d with
  | nil => intro h; simp [dictLookup] at h
  | cons p rest ih =>
    obtain ⟨k0, v0⟩ := p
    intro h
    cases hb : (k0 == k) with
    | true => simp [dictSet, dictKeys, hb]
    | false =>
      simp only [dictLookup, hb] at h
      simp only [Bool.false_eq_true, if_false] at h
      have ih2 := ih h
      simp only [dictKeys] at ih2
      simp [dictSet, dictKeys, hb, ih2]

/-- Reading back the key just set yields the value just set. -/
theorem dictLookup_dictSet_self {α : Type} (k : UStr) (v : α) :
    ∀ d : SDict α, dictLookup (dictSet d k v) k = some v := by
  intro d
  induction d with
  | nil => simp [dictSet, dictLookup]
  | cons p rest ih =>
    obtain ⟨k0, v0⟩ := p
    cases hb : (k0 == k) with
    | true => simp [dictSet, dictLookup, hb]
    | false => simp [dictSet, dictLookup, hb, ih]

/-- Setting one key does not change the value read at another key. -/
theorem dictLookup_dictSet_ne {α : Type} (k q : UStr) (v : α)
    (hne : (q == k) = false) :
    ∀ d : SDict α, dictLookup (dictSet d q v) k = dictLookup d k := by
  intro d
  induction d with
  | nil => simp [dictSet, dictLookup, hne]
  | cons p rest ih =>
    obtain ⟨k0, v0⟩ := p
    cases hb : (k0 == q) with
    | true =>
      have hk0 : k0 = q := by simpa using hb
      subst hk0
      simp [dictSet, dictLookup, hb, hne]
    | false => simp [dictSet, dictLookup, hb, ih]

/-- Every key after a set is the set key or one of the old keys. -/
theorem dictKeys_dictSet_sub {α : Type} (k : UStr) (v : α) :
    ∀ (d : SDict α) (x : UStr), x ∈ dictKeys (dictSet d k v) →
      x = k ∨ x ∈ dictKeys d := by
  intro d
  induction d with
  | nil =>
    intro x hx
    simp [dictSet, dictKeys] at hx
    exact Or.inl hx
  | cons p rest ih =>
    obtain ⟨k0, v0⟩ := p
    intro x hx
    cases hb : (k0 == k) with
    | true =>
      simp only [dictSet, hb, if_true, dictKeys, List.map_cons, List.mem_cons] at hx
      rcases hx with h | h
      · exact Or.inr (by simp [dictKeys, h])
      · exact Or.inr (by simp [dictKeys, h])
    | false =>
      simp only [dictSet, hb, Bool.false_eq_true, if_false, dictKeys,
        List.map_cons, List.mem_cons] at hx
      rcases hx with h | h
      · exact Or.inr (by simp [dictKeys, h])
      · rcases ih x h with h2 | h2
        · exact Or.inl h2
        · refine Or.inr ?_
          simp only [dictKeys, List.map_cons, List.mem_cons]
          exact Or.inr (by simpa [dictKeys] using h2)

/-- The key list of the stripped table is the list of stripped labels. -/
theorem stripCols_keys (df : DF) :
    dictKeys (stripCols df) = df.map (fun p => stripStr p.1) := by
  induction df with
  | nil => rfl
  | cons p rest ih =>
    simp only [stripCols, dictKeys, List.map_cons, List.map_map] at ih ⊢
    simp [ih]

/-- When the file matches the site and loads, the step stores the table. -/
theorem envSchoolStep_hit (f : DataFile) (acc : EnvAcc) (school : UStr)
    (g : DF) (hc : envFileMatch school f = true)
    (hp : loadCsvFile f = Except.ok g) :
    envSchoolStep f acc school = ⟨dictSet acc.env school g, acc.warns⟩ := by
  simp [envSchoolStep, hc, hp]

/-- When the file matches the site but fails to load, the step records a
warning and stores nothing. -/
theorem envSchoolStep_err (f : DataFile) (acc : EnvAcc) (school : UStr)
    (e : UStr) (hc : envFileMatch school f = true)
    (hp : loadCsvFile f = Except.error e) :
    envSchoolStep f acc school = ⟨acc.env, acc.warns ++ [f.name]⟩ := by
  simp [envSchoolStep, hc, hp]

/-- When the file does not match the site, the step changes nothing. -/
theorem envSchoolStep_miss (f : DataFile) (acc : EnvAcc) (school : UStr)
    (hc : envFileMatch school f = false) :
    envSchoolStep f acc school = acc := by
  simp [envSchoolStep, hc]

/-- When the sheet read succeeds, the school loop never aborts. -/
theorem growthSchoolLoop_ok (t : DataFile) (sn : UStr) (df : DF)
    (hr : read_excel t sn = Except.ok df) :
    ∀ (L : List UStr) (gd : SDict DF),
      (growthSchoolLoop t sn L gd).2 = none := by
  intro L
  induction L with
  | nil => intro gd; rfl
  | cons x rest ih =>
    intro gd
    cases hb : strIn x (normalize_text sn) with
    | true => simp [growthSchoolLoop, hb, hr, ih]
    | false => simp [growthSchoolLoop, hb, ih]

/-- The school loop touches only the keys it iterates over. -/
theorem growthSchoolLoop_lookup_of_not_mem (t : DataFile) (sn school : UStr) :
    ∀ (L : List UStr) (gd : SDict DF), school ∉ L →
      dictLookup (growthSchoolLoop t sn L gd).1 school =
        dictLookup gd school := by
  intro L
  induction L with
  | nil => intro gd _; rfl
  | cons x rest ih =>
    intro gd hnm
    have hx : school ≠ x := fun h => hnm (by simp [h])
    have hrest : school ∉ rest := fun h => hnm (List.mem_cons_of_mem _ h)
    cases hb : strIn x (normalize_text sn) with
    | false =>
      have he : growthSchoolLoop t sn (x :: rest) gd =
          growthSchoolLoop t sn rest gd := by
        simp [growthSchoolLoop, hb]
      rw [he]
      exact ih gd hrest
    | true =>
      cases hr : read_excel t sn with
      | ok df =>
        have he : growthSchoolLoop t sn (x :: rest) gd =
            growthSchoolLoop t sn rest (dictSet gd x (stripCols df)) := by
          simp [growthSchoolLoop, hb, hr]
        rw [he, ih _ hrest]
        exact dictLookup_dictSet_ne school x (stripCols df)
          (beq_eq_false_iff_ne.mpr (Ne.symm hx)) gd
      | error e =>
        have he : growthSchoolLoop t sn (x :: rest) gd = (gd, some e) := by
          simp [growthSchoolLoop, hb, hr]
        rw [he]

/-- When the sheet reads fine and its normalized name contains the site
identifier, the school loop stores the stripped table under that site. -/
theorem growthSchoolLoop_lookup_of_mem (t : DataFile) (sn school : UStr)
    (df : DF) (hr : read_excel t sn = Except.ok df)
    (hm : strIn school (normalize_text sn) = true) :
    ∀ (L : List UStr) (gd : SDict DF), school ∈ L →
      dictLookup (growthSchoolLoop t sn L gd).1 school =
        some (stripCols df) := by
  intro L
  induction L with
  | nil => intro gd h; cases h
  | cons x rest ih =>
    intro gd hmem
    by_cases hrest : school ∈ rest
    · cases hb : strIn x (normalize_text sn) with
      | true =>
        have he : growthSchoolLoop t sn (x :: rest) gd =
            growthSchoolLoop t sn rest (dictSet gd x (stripCols df)) := by
          simp [growthSchoolLoop, hb, hr]
        rw [he]
        exact ih _ hrest
      | false =>
        have he : growthSchoolLoop t sn (x :: rest) gd =
            growthSchoolLoop t sn rest gd := by
          simp [growthSchoolLoop, hb]
        rw [he]
        exact ih _ hrest
    · have hx : school = x := by
        rcases List.mem_cons.mp hmem with h | h
        · exact h
        · exact absurd h hrest
      subst hx
      have he : growthSchoolLoop t sn (school :: rest) gd =
          growthSchoolLoop t sn rest (dictSet gd school (stripCols df)) := by
        simp [growthSchoolLoop, hm, hr]
      rw [he, growthSchoolLoop_lookup_of_not_mem t sn school rest _ hrest,
        dictLookup_dictSet_self]

/-- Unfolding of the per-file site loop over the four concrete sites. -/
theorem envFileStep_expand (acc : EnvAcc) (f : DataFile) :
    envFileStep acc f =
      envSchoolStep f (envSchoolStep f (envSchoolStep f
        (envSchoolStep f acc songdo) haneul) arago) dongsan := rfl

/-- One site step only adds the key of the site it handles. -/
theorem envSchoolStep_keys_sub (f : DataFile) (acc : EnvAcc) (school x : UStr)
    (hx : x ∈ dictKeys (envSchoolStep f acc school).env) :
    x = school ∨ x ∈ dictKeys acc.env := by
  cases hc : envFileMatch school f with
  | false =>
    rw [envSchoolStep_miss f acc school hc] at hx
    exact Or.inr hx
  | true =>
    cases hp : loadCsvFile f with
    | ok g =>
      rw [envSchoolStep_hit f acc school g hc hp] at hx
      exact dictKeys_dictSet_sub school g acc.env x hx
    | error e =>
      rw [envSchoolStep_err f acc school e hc hp] at hx
      exact Or.inr hx

/-- The site loop only adds keys among the sites it iterates over. -/
theorem envFold_keys_sub (f : DataFile) :
    ∀ (L : List UStr) (acc : EnvAcc) (x : UStr),
      x ∈ dictKeys (L.foldl (envSchoolStep f) acc).env →
      x ∈ L ∨ x ∈ dictKeys acc.env := by
  intro L
  induction L with
  | nil => intro acc x hx; exact Or.inr hx
  | cons s rest ih =>
    intro acc x hx
    rcases ih (envSchoolStep f acc s) x hx with h | h
    · exact Or.inl (List.mem_cons_of_mem _ h)
    · rcases envSchoolStep_keys_sub f acc s x h with h2 | h2
      · exact Or.inl (by simp [h2])
      · exact Or.inr h2

/-- The environmental phase only ever keys the collection by site names. -/
theorem loadEnvData_keys_sub :
    ∀ (files : List DataFile) (acc : EnvAcc) (x : UStr),
      x ∈ dictKeys (files.foldl envFileStep acc).env →
      x ∈ siteNames ∨ x ∈ dictKeys acc.env := by
  intro files
  induction files with
  | nil => intro acc x hx; exact Or.inr hx
  | cons f rest ih =>
    intro acc x hx
    rcases ih (envFileStep acc f) x hx with h | h
    · exact Or.inl h
    · rcases envFold_keys_sub f siteNames acc x h with h2 | h2
      · exact Or.inl h2
      · exact Or.inr h2

/-- The per-sheet school loop only adds keys among the sites it iterates
over. -/
theorem growthSchoolLoop_keys_sub (t : DataFile) (sn : UStr) :
    ∀ (L : List UStr) (gd : SDict DF) (x : UStr),
      x ∈ dictKeys (growthSchoolLoop t sn L gd).1 →
      x ∈ L ∨ x ∈ dictKeys gd := by
  intro L
  induction L with
  | nil => intro gd x hx; exact Or.inr hx
  | cons s rest ih =>
    intro gd x hx
    cases hb : strIn s (normalize_text sn) with
    | false =>
      have he : growthSchoolLoop t sn (s :: rest) gd =
          growthSchoolLoop t sn rest gd := by
        simp [growthSchoolLoop, hb]
      rw [he] at hx
      rcases ih gd x hx with h | h
      · exact Or.inl (List.mem_cons_of_mem _ h)
      · exact Or.inr h
    | true =>
      cases hr : read_excel t sn with
      | ok df =>
        have he : growthSchoolLoop t sn (s :: rest) gd =
            growthSchoolLoop t sn rest (dictSet gd s (stripCols df)) := by
          simp [growthSchoolLoop, hb, hr]
        rw [he] at hx
        rcases ih _ x hx with h | h
        · exact Or.inl (List.mem_cons_of_mem _ h)
        · rcases dictKeys_dictSet_sub s (stripCols df) gd x h with h2 | h2
          · exact Or.inl (by simp [h2])
          · exact Or.inr h2
      | error e =>
        have he : growthSchoolLoop t sn (s :: rest) gd = (gd, some e) := by
          simp [growthSchoolLoop, hb, hr]
        rw [he] at hx
        exact Or.inr hx

/-- The sheet loop only ever keys the collection by site names. -/
theorem growthSheetLoop_keys_sub (t : DataFile) :
    ∀ (names : List UStr) (gd : SDict DF) (x : UStr),
      x ∈ dictKeys (growthSheetLoop t names gd).1 →
      x ∈ siteNames ∨ x ∈ dictKeys gd := by
  intro names
  induction names with
  | nil => intro gd x hx; exact Or.inr hx
  | cons sn rest ih =>
    intro gd x hx
    rcases hres : growthSchoolLoop t sn siteNames gd with ⟨gd2, o⟩
    have hsub : ∀ y, y ∈ dictKeys gd2 → y ∈ siteNames ∨ y ∈ dictKeys gd := by
      intro y hy
      exact growthSchoolLoop_keys_sub t sn siteNames gd y (by rw [hres]; exact hy)
    cases o with
    | none =>
      have he : growthSheetLoop t (sn :: rest) gd = growthSheetLoop t rest gd2 := by
        simp [growthSheetLoop, hres]
      rw [he] at hx
      rcases ih gd2 x hx with h | h
      · exact Or.inl h
      · exact hsub x h
    | some e =>
      have he : growthSheetLoop t (sn :: rest) gd = (gd2, some e) := by
        simp [growthSheetLoop, hres]
      rw [he] at hx
      exact hsub x hx

/-- The growth phase only ever keys the collection by site names. -/
theorem loadGrowthFrom_keys_sub :
    ∀ (l : List DataFile) (x : UStr),
      x ∈ dictKeys (loadGrowthFrom l).1 → x ∈ siteNames := by
  intro l x hx
  cases l with
  | nil => simp [loadGrowthFrom, dictKeys] at hx
  | cons t rest =>
    cases hs : excel_sheet_names t with
    | error e =>
      simp only [loadGrowthFrom, hs] at hx
      simp [dictKeys] at hx
    | ok names =>
      rcases hres : growthSheetLoop t names [] with ⟨gd, o⟩
      have hx2 : x ∈ dictKeys gd := by
        cases o with
        | none => simpa only [loadGrowthFrom, hs, hres] using hx
        | some e => simpa only [loadGrowthFrom, hs, hres] using hx
      rcases growthSheetLoop_keys_sub t names [] x (by rw [hres]; exact hx2)
        with h | h
      · exact h
      · simp [dictKeys] at h

/-- A file without the `.csv` suffix matches no site. -/
theorem envFileMatch_false_of_not_csv (f : DataFile) (school : UStr)
    (h : fSuffix f.name ≠ strCsv) : envFileMatch school f = false := by
  unfold envFileMatch
  have h2 : (fSuffix f.name == strCsv) = false := beq_eq_false_iff_ne.mpr h
  simp [h2]

/-- A file without the `.csv` suffix leaves the site loop unchanged. -/
theorem envFold_nocsv (f : DataFile) (h : fSuffix f.name ≠ strCsv) :
    ∀ (L : List UStr) (acc : EnvAcc), L.foldl (envSchoolStep f) acc = acc := by
  intro L
  induction L with
  | nil => intro acc; rfl
  | cons s rest ih =>
    intro acc
    show rest.foldl (envSchoolStep f) (envSchoolStep f acc s) = acc
    rw [envSchoolStep_miss f acc s (envFileMatch_false_of_not_csv f s h)]
    exact ih acc

/-- A directory without any `.csv` file leaves the environmental
collection untouched. -/
theorem loadEnvData_nocsv :
    ∀ (files : List DataFile) (acc : EnvAcc),
      (∀ f ∈ files, fSuffix f.name ≠ strCsv) →
      files.foldl envFileStep acc = acc := by
  intro files
  induction files with
  | nil => intro acc _; rfl
  | cons f rest ih =>
    intro acc h
    show rest.foldl envFileStep (envFileStep acc f) = acc
    rw [show envFileStep acc f = acc from
      envFold_nocsv f (h f (List.mem_cons_self f rest)) siteNames acc]
    exact ih acc (fun g hg => h g (List.mem_cons_of_mem _ hg))

/-- When the first workbook candidate opens and its sheet loop finishes
without a raised error, the growth phase returns its collection and no
warnings. -/
theorem loadGrowthFrom_cons_ok (t : DataFile) (names : List UStr)
    (gd : SDict DF) (rest : List DataFile)
    (hs : excel_sheet_names t = Except.ok names)
    (hl : growthSheetLoop t names [] = (gd, none)) :
    loadGrowthFrom (t :: rest) = (gd, []) := by
  simp [loadGrowthFrom, hs, hl]

/-! Claim theorems. -/

/-- Claim C1 as stated is false on the code: the loader of src/main.py
derives no EC-delta column at all.  For the concrete directory holding one
well-formed CSV for 송도고 with EC values 1, 3, 2, the loaded table exists,
the specified delta column would be 0, 2, 1, and no column of the loaded
table equals that delta column. -/
theorem c1_counterexample :
    dictLookup (load_all_data (some [fileSongdo])).env songdo
      = some loadedSongdoDf ∧
    ecDeltaSpec [1, 3, 2] = [0, 2, 1] ∧
    (∀ p ∈ loadedSongdoDf, p.2 ≠ [Cell.num 0, Cell.num 2, Cell.num 1]) := by
  refine ⟨by decide, by decide, by decide⟩

/-- Claim C1 (amended): the loader derives no additional column; every
environmental table that loads successfully carries exactly the columns of
the input file with labels stripped, so in particular no EC-delta column is
added. -/
theorem c1_amended (n : UStr) (df g : DF)
    (h : loadCsvFile ⟨n, FileContent.csv df⟩ = Except.ok g) :
    dictKeys g = df.map (fun p => stripStr p.1) := by
  have h2 : parseCsvDf df = Except.ok g := h
  unfold parseCsvDf at h2
  split at h2
  · exact Except.noConfusion h2
  · rename_i col hl
    split at h2
    · exact Except.noConfusion h2
    · rename_i col2 ht
      injection h2 with hg
      rw [← hg, dictKeys_dictSet_of_mem strTime col col2 _ hl, stripCols_keys]

/-- Witness for the amended C1 at the concrete 송도고 CSV. -/
theorem c1_amended_witness :
    dictKeys loadedSongdoDf = envDf1.map (fun p => stripStr p.1) :=
  c1_amended (songdo ++ strCsv) envDf1 loadedSongdoDf (by rfl)

/-- Claim C2 as stated is false on the code: sheet matching is substring
containment, not exact equality.  The workbook whose only sheet is named
송도고_a (normalized form different from 송도고 but containing it) is
associated with site 송도고. -/
theorem c2_counterexample :
    normalize_text songdoA ≠ songdo ∧
    strIn songdo (normalize_text songdoA) = true ∧
    dictLookup (load_all_data (some [wbC2])).growth songdo
      = some growthDf1 := by
  refine ⟨by decide, by decide, by decide⟩

/-- Claim C2 (amended): a workbook sheet is associated with a site when the
NFC-normalized sheet name contains the normalized site identifier as a
substring, the same containment rule as for environmental files; exact
equality is not required. -/
theorem c2_amended (sn : UStr) (df : DF) (school : UStr)
    (hs : school ∈ siteNames)
    (hm : strIn school (normalize_text sn) = true) :
    dictLookup (load_all_data (some [wbOf sn df])).growth school
      = some (stripCols df) := by
  have hr : read_excel (wbOf sn df) sn = Except.ok df := by
    simp [read_excel, wbOf, dictLookup]
  have hnone := growthSchoolLoop_ok (wbOf sn df) sn df hr siteNames []
  rcases hres : growthSchoolLoop (wbOf sn df) sn siteNames [] with ⟨gd2, o⟩
  rw [hres] at hnone
  subst hnone
  have hsheet : growthSheetLoop (wbOf sn df) [sn] [] = (gd2, none) := by
    simp [growthSheetLoop, hres]
  have hgrow : (load_all_data (some [wbOf sn df])).growth = gd2 := by
    show (loadGrowthData [wbOf sn df]).1 = gd2
    rw [show loadGrowthData [wbOf sn df] = loadGrowthFrom [wbOf sn df] from rfl,
      loadGrowthFrom_cons_ok (wbOf sn df) [sn] gd2 [] (by rfl) hsheet]
  have hlook := growthSchoolLoop_lookup_of_mem (wbOf sn df) sn school df hr hm
    siteNames [] hs
  rw [hres] at hlook
  rw [hgrow]
  exact hlook

/-- Witness for the amended C2 at the concrete sheet named 송도고_a. -/
theorem c2_amended_witness :
    dictLookup (load_all_data (some [wbOf songdoA growthDf1])).growth songdo
      = some (stripCols growthDf1) :=
  c2_amended songdoA growthDf1 songdo (by decide) (by decide)

/-- Claim C3 as stated is false on the code: a later-enumerated matching
file does replace an earlier match for the same site.  With the file
송도고_a.csv alone the site maps to that table, but with 송도고_b.csv
enumerated after it the site maps to the second, different table. -/
theorem c3_counterexample :
    (loadEnvData [f3a]).env = [(songdo, pA)] ∧
    (load_all_data (some [f3a, f3b])).env = [(songdo, pB)] ∧
    pA ≠ pB := by
  refine ⟨by decide, by decide, by decide⟩

/-- Claim C3 (amended): when several files match the same site, the loader
keeps the table of the last matching file in enumeration order; each later
match overwrites the stored entry. -/
theorem c3_amended (df1 df2 g1 g2 : DF)
    (h1 : parseCsvDf df1 = Except.ok g1)
    (h2 : parseCsvDf df2 = Except.ok g2) :
    dictLookup (load_all_data (some [f3aOf df1, f3bOf df2])).env songdo
      = some g2 := by
  have e1 : envFileStep ⟨[], []⟩ (f3aOf df1) = ⟨dictSet [] songdo g1, []⟩ := by
    rw [envFileStep_expand,
      envSchoolStep_hit (f3aOf df1) ⟨[], []⟩ songdo g1 rfl h1,
      envSchoolStep_miss (f3aOf df1) _ haneul rfl,
      envSchoolStep_miss (f3aOf df1) _ arago rfl,
      envSchoolStep_miss (f3aOf df1) _ dongsan rfl]
  have e2 : envFileStep ⟨dictSet [] songdo g1, []⟩ (f3bOf df2)
      = ⟨dictSet (dictSet [] songdo g1) songdo g2, []⟩ := by
    rw [envFileStep_expand,
      envSchoolStep_hit (f3bOf df2) ⟨dictSet [] songdo g1, []⟩ songdo g2
        rfl h2,
      envSchoolStep_miss (f3bOf df2) _ haneul rfl,
      envSchoolStep_miss (f3bOf df2) _ arago rfl,
      envSchoolStep_miss (f3bOf df2) _ dongsan rfl]
  have e3 : (load_all_data (some [f3aOf df1, f3bOf df2])).env
      = dictSet (dictSet [] songdo g1) songdo g2 := by
    show (loadEnvData [f3aOf df1, f3bOf df2]).env = _
    rw [show loadEnvData [f3aOf df1, f3bOf df2]
        = envFileStep (envFileStep ⟨[], []⟩ (f3aOf df1)) (f3bOf df2) from rfl,
      e1, e2]
  rw [e3, dictLookup_dictSet_self]

/-- Witness for the amended C3 at two concrete 송도고 files. -/
theorem c3_amended_witness :
    dictLookup (load_all_data (some [f3aOf dfA, f3bOf dfB])).env songdo
      = some pB :=
  c3_amended dfA dfB pA pB (by rfl) (by rfl)

/-- Claim C4 as stated is false on the code: the loader stamps no fields
onto growth rows.  For the workbook whose sheet 송도고 holds one numeric
column, the stored table has no column holding the site identifier in
every row and none holding the target EC value 1 in every row. -/
theorem c4_counterexample :
    dictLookup (load_all_data (some [wbC4])).growth songdo
      = some growthDf1 ∧
    (∀ p ∈ growthDf1, ¬ (∀ c ∈ p.2, c = Cell.txt songdo)) ∧
    (∀ p ∈ growthDf1, ¬ (∀ c ∈ p.2, c = Cell.num 1)) := by
  refine ⟨by decide, by decide, by decide⟩

/-- Claim C4 (amended): the table stored for a matched sheet is exactly the
the content of that sheet with column labels stripped; the owning site
identifier and the target EC value are not added at load time. -/
theorem c4_amended (df : DF) :
    dictLookup (load_all_data (some [wb4Of df])).growth songdo
      = some (stripCols df) ∧
    dictKeys (stripCols df) = df.map (fun p => stripStr p.1) :=
  ⟨rfl, stripCols_keys df⟩

/-- Claim C5 as stated is false on the code for the growth collection: one
raised sheet read aborts the remaining sheets.  For the workbook whose
first sheet (송도고) raises and whose second sheet (하늘고) is
well-formed, the growth collection comes back empty, the well-formed
sibling 하늘고 is absent, and only one warning is issued. -/
theorem c5_counterexample :
    (load_all_data (some [wbC5])).growth = [] ∧
    dictLookup (load_all_data (some [wbC5])).growth haneul = none ∧
    (load_all_data (some [wbC5])).warnings = [eX] := by
  refine ⟨by decide, by decide, by decide⟩

/-- Claim C5 (amended): for the environmental collection a load failure is
confined to the failing file (a warning is recorded, the site is omitted,
and a sibling site loads); for the growth collection a raised sheet read
stops the whole sheet loop, so later sibling sheets are skipped and one
warning is issued. -/
theorem c5_amended (dfBad dfGood g df : DF) (e1 e2 : UStr)
    (hb : parseCsvDf dfBad = Except.error e1)
    (hg : parseCsvDf dfGood = Except.ok g) :
    loadEnvData [f5bad dfBad, f5good dfGood]
      = ⟨[(haneul, g)], [songdo ++ [0x5F, 0x78] ++ strCsv]⟩ ∧
    loadGrowthData [wb5Of e2 df] = ([], [e2]) := by
  constructor
  · have e1s : envFileStep ⟨[], []⟩ (f5bad dfBad)
        = ⟨[], [songdo ++ [0x5F, 0x78] ++ strCsv]⟩ := by
      rw [envFileStep_expand,
        envSchoolStep_err (f5bad dfBad) ⟨[], []⟩ songdo e1 rfl hb,
        envSchoolStep_miss (f5bad dfBad) _ haneul rfl,
        envSchoolStep_miss (f5bad dfBad) _ arago rfl,
        envSchoolStep_miss (f5bad dfBad) _ dongsan rfl]
      exact rfl
    have e2s : envFileStep ⟨[], [songdo ++ [0x5F, 0x78] ++ strCsv]⟩
          (f5good dfGood)
        = ⟨[(haneul, g)], [songdo ++ [0x5F, 0x78] ++ strCsv]⟩ := by
      rw [envFileStep_expand,
        envSchoolStep_miss (f5good dfGood) _ songdo rfl,
        envSchoolStep_hit (f5good dfGood) _ haneul g rfl hg,
        envSchoolStep_miss (f5good dfGood) _ arago rfl,
        envSchoolStep_miss (f5good dfGood) _ dongsan rfl]
      exact rfl
    show envFileStep (envFileStep ⟨[], []⟩ (f5bad dfBad)) (f5good dfGood) = _
    rw [e1s, e2s]
  · rfl

/-- Witness for the amended C5 at a concrete malformed-timestamp file, a
concrete well-formed sibling, and a concrete failing workbook. -/
theorem c5_amended_witness :
    (loadEnvData [f5bad dfBadTime, f5good dfB]
      = ⟨[(haneul, pB)], [songdo ++ [0x5F, 0x78] ++ strCsv]⟩) ∧
    loadGrowthData [wb5Of eX growthDf1] = ([], [eX]) :=
  c5_amended dfBadTime dfB pB growthDf1 errDate eX (by rfl) (by rfl)

/-- Claim C6 as stated is false on the code: with files for three of the
four sites, the environmental collection does hold exactly those three
keys, but the per-site trend view of tab 2 subscripts the collection
directly and raises a missing-key error when the absent site 동산고 is
selected, so not every site lookup is treated as possibly absent. -/
theorem c6_counterexample :
    dictKeys (load_all_data (some dirC6)).env = [songdo, haneul, arago] ∧
    envTrendView (load_all_data (some dirC6)).env dongsan
      = Except.error errKey := by
  exact ⟨by decide, rfl⟩

/-- Claim C6 (amended): with files for three of the four sites the
environmental collection holds exactly those three keys; the guarded count
lookup of tab 1 tolerates the absent fourth site (reporting zero rows),
but the direct subscription of tab 2 raises a missing-key error for it. -/
theorem c6_amended :
    dictKeys (load_all_data (some dirC6)).env = [songdo, haneul, arago] ∧
    tab1CondRow (load_all_data (some dirC6)).growth dongsan
      ⟨8, [0x23, 0x45, 0x46, 0x35, 0x35, 0x33, 0x42]⟩ = (dongsan, 8, 0) ∧
    envTrendView (load_all_data (some dirC6)).env dongsan
      = Except.error errKey := by
  exact ⟨by decide, rfl, rfl⟩

/-- Claim C7 holds: a directory without a workbook file yields an empty
growth collection and the module-level guard halts rendering whenever the
growth collection is empty; a directory whose workbook merely lacks the
sheet of one site yields the remaining three site keys, no warning, and no
halt. -/
theorem c7_fatal_vs_recoverable :
    (∀ files : List DataFile,
      files.filter
        (fun f => fSuffix f.name == strXlsx || fSuffix f.name == strXls) = [] →
      (loadGrowthData files).1 = [] ∧
      ∀ (env : SDict DF) (warns : List UStr),
        haltsRendering ⟨schools, env, [], warns⟩ = true) ∧
    dictKeys (load_all_data (some dirC7)).growth = [songdo, haneul, arago] ∧
    haltsRendering (load_all_data (some dirC7)) = false ∧
    (load_all_data (some dirC7)).warnings = [] := by
  refine ⟨?_, by decide, by decide, by decide⟩
  intro files hfil
  constructor
  · rw [show loadGrowthData files = loadGrowthFrom (files.filter
      (fun f => fSuffix f.name == strXlsx || fSuffix f.name == strXls))
      from rfl, hfil]
    rfl
  · intro env warns
    simp [haltsRendering]

/-- Witness for C7 at a concrete directory without a workbook file. -/
theorem c7_witness :
    (loadGrowthData [fileSongdo]).1 = [] ∧
    haltsRendering ⟨schools, [], [], []⟩ = true :=
  ⟨(c7_fatal_vs_recoverable.1 [fileSongdo] rfl).1,
   (c7_fatal_vs_recoverable.1 [fileSongdo] rfl).2 [] []⟩

/-- Claim C8 holds: when the input directory does not exist,
`load_all_data` returns with both collections empty and no warnings, and
no error escapes. -/
theorem c8_missing_dir : load_all_data none = ⟨schools, [], [], []⟩ := rfl

/-- Claim C9 as stated is false on the code: only the candidate name is
normalized, not the keyword.  The decomposed and composed encodings of
송도고 are byte-distinct encodings of the same text (equal after
normalization), yet a keyword built from the decomposed form fails to
containment-match the composed candidate file name. -/
theorem c9_counterexample :
    songdoNFD ≠ songdo ∧
    normalize_text songdoNFD = normalize_text songdo ∧
    envFileMatch songdoNFD fileSongdo = false := by
  refine ⟨by decide, by decide, by decide⟩

/-- Claim C9 (amended): candidate names are reduced to NFC before
comparison, so match results cannot distinguish the composed and
decomposed encodings of a candidate name, and the NFC-form keyword (the
form the source stores) matches candidates in either encoding; only a
keyword itself in decomposed form fails to match. -/
theorem c9_amended :
    normalize_text fileSongdoNFD.name = normalize_text fileSongdo.name ∧
    (∀ k : UStr, envFileMatch k fileSongdoNFD = envFileMatch k fileSongdo) ∧
    envFileMatch songdo fileSongdo = true ∧
    envFileMatch songdo fileSongdoNFD = true := by
  refine ⟨by decide, ?_, by decide, by decide⟩
  intro k
  have h1 : normalize_text fileSongdoNFD.name
      = normalize_text fileSongdo.name := by decide
  have h2 : fSuffix fileSongdoNFD.name = fSuffix fileSongdo.name := by decide
  unfold envFileMatch
  rw [h1, h2]

/-- Claim C10 holds: every key of either collection is one of the four
configured site identifiers, the configuration part of the result is the
`schools` constant whatever the directory holds, and a directory without
any file of suffix `.csv` leaves the environmental collection empty. -/
theorem c10_invariants :
    (∀ dir : Option (List DataFile),
      (∀ x ∈ dictKeys (load_all_data dir).env, x ∈ siteNames) ∧
      (∀ x ∈ dictKeys (load_all_data dir).growth, x ∈ siteNames) ∧
      (load_all_data dir).schoolInfo = schools) ∧
    (∀ files : List DataFile,
      (∀ f ∈ files, fSuffix f.name ≠ strCsv) →
      (load_all_data (some files)).env = []) := by
  constructor
  · intro dir
    cases dir with
    | none =>
      refine ⟨?_, ?_, rfl⟩ <;> intro x hx <;> simp [load_all_data, dictKeys] at hx
    | some files =>
      refine ⟨?_, ?_, rfl⟩
      · intro x hx
        rcases loadEnvData_keys_sub files ⟨[], []⟩ x hx with h | h
        · exact h
        · simp [dictKeys] at h
      · intro x hx
        exact loadGrowthFrom_keys_sub (files.filter
          (fun f => fSuffix f.name == strXlsx || fSuffix f.name == strXls)) x hx
  · intro files h
    show (loadEnvData files).env = []
    rw [show loadEnvData files = files.foldl envFileStep ⟨[], []⟩ from rfl,
      loadEnvData_nocsv files ⟨[], []⟩ h]

/-- Witness for C10 at a concrete directory and a concrete csv-free
directory. -/
theorem c10_witness :
    songdo ∈ siteNames ∧ (load_all_data (some [wbC4])).env = [] :=
  ⟨(c10_invariants.1 (some [fileSongdo])).1 songdo (by decide),
   c10_invariants.2 [wbC4] (by decide)⟩
